import Mathlib

/-!
Shallow embedding of the lmttfy repository (src/lmttfy): `common.py`,
`process.py` and `thread.py`.  The process path (class `MultiProcessedCall`,
the worker trampoline `mp_exec_wrapper`, the sync loop `__sync_state` and the
decorator `invoke_in_sp`) is embedded in full; the thread path
(`ThreadedCall`, `invoke_in_thread`) is embedded for the operations the
claims cite.  Python machine state is made explicit: the global counter
dictionaries become association lists, the inter-process queue becomes a list
of polled values, side effects (callbacks, process kills, counter decrements,
log lines) become an explicit action trace, and raised exceptions become
`Except` errors.
-/

namespace Lmttfy

/-! ## common.py -/

/-- `CALL_STATE_INCOMPLETE: int = 0` from common.py. -/
def CALL_STATE_INCOMPLETE : Nat := 0

/-- `CALL_STATE_SUCCESS: int = 1` from common.py. -/
def CALL_STATE_SUCCESS : Nat := 1

/-- `CALL_STATE_ERROR: int = 2` from common.py. -/
def CALL_STATE_ERROR : Nat := 2

/-- A callback slot of a call object.  `pass_` is common.py's do-nothing
default callback; `user f` is a callback the caller registered, drawn from an
opaque type `κ`. -/
inductive Callback (κ : Type) where
  | pass_ : Callback κ
  | user (f : κ) : Callback κ
deriving DecidableEq, Repr

/-- Modelled from the spec: the module `lmttfy.exceptions` is not among the
source files; the spec's error taxonomy (§7) names `ConcurrencyLimitExceeded`
(source class `MaxConcurrentCallsLimitExceedException`) and `NoErrorToBurst`
(source class `BurstWhileNoTaskErrorsException`).  `captured e` is an
arbitrary exception raised by the user function (opaque type `ε`);
`processLookupError` and `calledProcessError` model Python's stdlib
exceptions raised by `os.kill` on a missing pid and by `subprocess.run`
with `check=True` on a failing command. -/
inductive PyExc (ε : Type) where
  | maxConcurrentCallsLimitExceed (msg : String) : PyExc ε
  | burstWhileNoTaskErrors (msg : String) : PyExc ε
  | keyError : PyExc ε
  | processLookupError : PyExc ε
  | calledProcessError : PyExc ε
  | captured (e : ε) : PyExc ε
deriving DecidableEq, Repr

/-- Whether an exception value is one captured from the user function
(as opposed to one of the library's / stdlib's own exception classes). -/
def PyExc.isCaptured {ε : Type} : PyExc ε → Bool
  | .captured _ => true
  | _ => false

/-! ## The result channel -/

/-- An Outcome Message: the tuples `("success_set", fc_ret)` and
`("exception_set", e)` that `mp_exec_wrapper` puts on the
`multiprocessing.Queue`.  The tag is the constructor; these are the only
tuples any producer ever sends. -/
inductive QMsg (α ε : Type) where
  | success_set (v : α) : QMsg α ε
  | exception_set (e : ε) : QMsg α ε
deriving DecidableEq, Repr

/-- One attempt of `self.__ipcq.get(timeout=0.1)`: either a message was
available or the attempt timed out (`queue.Empty` / `TimeoutError`). -/
inductive Poll (α ε : Type) where
  | msg (m : QMsg α ε) : Poll α ε
  | empty : Poll α ε
deriving DecidableEq, Repr

/-- `mp_exec_wrapper` from process.py: run the user function (its outcome is
an `Except`: normal return or raised exception) and put exactly one tagged
tuple on the queue.  The returned list is everything the worker ever sends on
the channel. -/
def mp_exec_wrapper {α ε : Type} (res : Except ε α) : List (QMsg α ε) :=
  match res with
  | .ok fc_ret => [QMsg.success_set fc_ret]
  | .error e => [QMsg.exception_set e]

/-! ## The concurrency-limiter tables

`PROCESS_CALL_COUNTER` / `FUN_CALL_COUNTER` are Python dicts from function id
to an int count; they are modelled as association lists so that lookups,
membership tests and updates are the dict's. -/

/-- A counter table: `dict[int, int]` as an association list. -/
abbrev Tbl := List (Nat × Int)

/-- Dict lookup: `tbl[fid]` when present, `none` when `fid not in tbl`. -/
def tblGet : Tbl → Nat → Option Int
  | [], _ => none
  | (k, v) :: rest, fid => if k = fid then some v else tblGet rest fid

/-- Dict update / insert: `tbl[fid] = v`. -/
def tblSet : Tbl → Nat → Int → Tbl
  | [], fid, v => [(fid, v)]
  | (k, w) :: rest, fid, v =>
      if k = fid then (k, v) :: rest else (k, w) :: tblSet rest fid v

/-- The in-flight count the table records for `fid` (0 when absent). -/
def countOf (tbl : Tbl) (fid : Nat) : Int :=
  (tblGet tbl fid).getD 0

/-! ## Observable actions

The side effects the sync loop / call objects perform, in order, as an
explicit trace. -/

/-- One observable side effect.  `stateTransition` is the write to
`self.__state`; `terminateRequested` is `self.process.terminate()`;
`joinGrace` is `self.process.join(timeout=5)`; `taskkillForce` is
`subprocess.run(["taskkill", "/PID", pid, "/F"], check=True)`;
`kill_SIGKILL` is `os.kill(pid, signal.SIGKILL)`; `onCompleteCalled` /
`onErrorCalled` are the invocations of the registered callbacks with their
argument; `onErrorCalledWithHandle` is thread.py line 87's
`self.__onError(self)` which passes the call object itself;
`counterDecremented` is the guarded decrement of the global counter;
`timeoutLogged` is the `logging.warning` in the sync loop's `except` arm. -/
inductive Action (α ε κ : Type) where
  | stateTransition (s : Nat) : Action α ε κ
  | terminateRequested (pid : Nat) : Action α ε κ
  | joinGrace (seconds : Nat) : Action α ε κ
  | taskkillForce (pid : Nat) : Action α ε κ
  | kill_SIGKILL (pid : Nat) : Action α ε κ
  | onCompleteCalled (cb : Callback κ) (v : Option α) : Action α ε κ
  | onErrorCalled (cb : Callback κ) (e : PyExc ε) : Action α ε κ
  | onErrorCalledWithHandle (cb : Callback κ) : Action α ε κ
  | counterDecremented (fid : Nat) : Action α ε κ
  | timeoutLogged (fid : Nat) : Action α ε κ
deriving DecidableEq, Repr

/-! ## The worker process, as the sync loop observes it

The sync loop consults the worker process at two points (`is_alive()` before
`terminate()`, and `is_alive()` again after the 5-second `join`); the model
records what those two consultations return, plus the platform and pid. -/

/-- The worker process's observable status during the termination protocol.
`aliveAtOutcome` is `self.process.is_alive()` when the outcome message is
processed; `aliveAfterGrace` is `self.process.is_alive()` after
`terminate()` and `join(timeout=5)`. -/
structure ProcState where
  platform : String
  pid : Nat
  aliveAtOutcome : Bool
  aliveAfterGrace : Bool
deriving DecidableEq, Repr

/-- `os.kill(pid, signal.SIGKILL)`: delivers the signal when the process
still exists, raises `ProcessLookupError` when it does not. -/
def os_kill {α ε κ : Type} (aliveNow : Bool) (pid : Nat) :
    Except (PyExc ε) (Action α ε κ) :=
  if aliveNow then .ok (.kill_SIGKILL pid) else .error .processLookupError

/-- `subprocess.run(["taskkill", "/PID", pid, "/F"], check=True)`: succeeds
when the process still exists, raises `CalledProcessError` when taskkill
fails because it does not. -/
def taskkill_run {α ε κ : Type} (aliveNow : Bool) (pid : Nat) :
    Except (PyExc ε) (Action α ε κ) :=
  if aliveNow then .ok (.taskkillForce pid) else .error .calledProcessError

/-- The termination block of `MultiProcessedCall.__sync_state`
(process.py lines 115-125): when termination-on-return is configured and the
worker is still alive, call `terminate()`, `join(timeout=5)`, and only if
the worker is still alive after the grace window escalate to the
platform-dependent forceful kill.  Sequentially the aliveness the guard
checked is the aliveness the kill sees, so the fallible kill is invoked only
on a live process. -/
def terminationProtocol {α ε κ : Type} (tor : Bool) (p : ProcState) :
    Except (PyExc ε) (List (Action α ε κ)) :=
  if tor && p.aliveAtOutcome then
    if p.aliveAfterGrace then
      match (if p.platform = "Windows" then taskkill_run p.aliveAfterGrace p.pid
             else os_kill p.aliveAfterGrace p.pid) with
      | .ok killAct => .ok [.terminateRequested p.pid, .joinGrace 5, killAct]
      | .error e => .error e
    else .ok [.terminateRequested p.pid, .joinGrace 5]
  else .ok []

/-- The action list `terminationProtocol` produces on its non-raising paths
(it never raises; see the C3 theorem). -/
def terminationActions {α ε κ : Type} (tor : Bool) (p : ProcState) :
    List (Action α ε κ) :=
  match @terminationProtocol α ε κ tor p with
  | .ok acts => acts
  | .error _ => []

/-! ## MultiProcessedCall (process.py) -/

/-- The caller-visible fields of a `MultiProcessedCall` object:
`self.__exception`, `self.__fid`, `self.__fc_ret`, `self.__state`,
`self.__tor`, `self.__onComplete`, `self.__onError`. -/
structure MultiProcessedCall (α ε κ : Type) where
  exception : PyExc ε
  fid : Nat
  fc_ret : Option α
  state : Nat
  tor : Bool
  onComplete : Callback κ
  onError : Callback κ
deriving DecidableEq, Repr

namespace MultiProcessedCall

/-- `MultiProcessedCall.__init__`: the placeholder exception, `fid`,
no return value yet, state `CALL_STATE_INCOMPLETE`, the configured
termination flag, and `pass_` for both callbacks. -/
def init (α ε κ : Type) (fid : Nat) (tor : Bool) : MultiProcessedCall α ε κ :=
  { exception := .burstWhileNoTaskErrors
      "Burst called with no error on multiprocessing task"
    fid := fid
    fc_ret := none
    state := CALL_STATE_INCOMPLETE
    tor := tor
    onComplete := .pass_
    onError := .pass_ }

variable {α ε κ : Type}

/-- The state/value writes `__sync_state` performs on receiving one outcome
message (process.py lines 103-110): `success_set` sets the state to
`CALL_STATE_SUCCESS` and stores the return value; `exception_set` sets the
state to `CALL_STATE_ERROR` and stores the captured exception. -/
def handleOutcome (h : MultiProcessedCall α ε κ) (m : QMsg α ε) :
    MultiProcessedCall α ε κ :=
  match m with
  | .success_set v => { h with state := CALL_STATE_SUCCESS, fc_ret := some v }
  | .exception_set e => { h with state := CALL_STATE_ERROR, exception := .captured e }

/-- The callback dispatch of `__sync_state` (process.py lines 127-130):
call `self.__onComplete(self.__fc_ret)` when the new state is Success,
`self.__onError(self.__exception)` when it is Error. -/
def callbackActions (h : MultiProcessedCall α ε κ) : List (Action α ε κ) :=
  if h.state = CALL_STATE_SUCCESS then [.onCompleteCalled h.onComplete h.fc_ret]
  else if h.state = CALL_STATE_ERROR then [.onErrorCalled h.onError h.exception]
  else []

/-- One iteration of the `while` body of `__sync_state`: a timed-out
`get` is caught and logged; a message runs the state transition, then the
termination protocol, then the callbacks, then the counter decrement.  If
the termination protocol raises, the exception propagates and kills the
sync thread after the state transition but before any callback or counter
decrement. -/
def sync_state_step (h : MultiProcessedCall α ε κ) (p : Poll α ε)
    (proc : ProcState) : MultiProcessedCall α ε κ × List (Action α ε κ) :=
  match p with
  | .empty => (h, [.timeoutLogged h.fid])
  | .msg m =>
    let h1 := handleOutcome h m
    match @terminationProtocol α ε κ h1.tor proc with
    | .error _ => (h1, [.stateTransition h1.state])
    | .ok termActs =>
        (h1, .stateTransition h1.state :: termActs
               ++ callbackActions h1 ++ [.counterDecremented h1.fid])

/-- `MultiProcessedCall.__sync_state`: `while self.__state ==
CALL_STATE_INCOMPLETE`, attempt one `get` and run the body.  The infinite
loop is truncated at a finite list of poll results; an empty list means the
loop is still running. -/
def sync_state (h : MultiProcessedCall α ε κ) (polls : List (Poll α ε))
    (proc : ProcState) : MultiProcessedCall α ε κ × List (Action α ε κ) :=
  match polls with
  | [] => (h, [])
  | p :: rest =>
    if h.state = CALL_STATE_INCOMPLETE then
      let r := sync_state_step h p proc
      let r2 := sync_state r.1 rest proc
      (r2.1, r.2 ++ r2.2)
    else (h, [])

/-- `MultiProcessedCall.on_complete`: store the callback, invoke it at once
with the stored return value when the state is already Success (and the
immediate flag is set), and return `self`. -/
def on_complete (h : MultiProcessedCall α ε κ) (func : κ)
    (immediate_callback_if_done : Bool) :
    MultiProcessedCall α ε κ × List (Action α ε κ) :=
  let h' := { h with onComplete := .user func }
  if h'.state = CALL_STATE_SUCCESS && immediate_callback_if_done then
    (h', [.onCompleteCalled h'.onComplete h'.fc_ret])
  else (h', [])

/-- `MultiProcessedCall.on_error`: store the callback, invoke it at once
with the stored exception when the state is already Error (and the
immediate flag is set), and return `self`. -/
def on_error (h : MultiProcessedCall α ε κ) (func : κ)
    (immediate_callback_if_done : Bool) :
    MultiProcessedCall α ε κ × List (Action α ε κ) :=
  let h' := { h with onError := .user func }
  if h'.state = CALL_STATE_ERROR && immediate_callback_if_done then
    (h', [.onErrorCalled h'.onError h'.exception])
  else (h', [])

/-- `MultiProcessedCall.burst`: `raise self.__exception`, unconditionally. -/
def burst (h : MultiProcessedCall α ε κ) : PyExc ε :=
  h.exception

end MultiProcessedCall

/-! ## wait -/

/-- How a `wait(timeout)` call blocks: not at all (the state was already
terminal, so the `join` branch is skipped), `join(timeout=timeout)` (a
bounded block), or `join()` (an unbounded block on the watcher thread). -/
inductive JoinMode where
  | noJoin : JoinMode
  | joinBounded (timeout : Int) : JoinMode
  | joinUnbounded : JoinMode
deriving DecidableEq, Repr

namespace MultiProcessedCall

variable {α ε κ : Type}

/-- `MultiProcessedCall.wait`: when the state is still
`CALL_STATE_INCOMPLETE`, join the sync thread — with the timeout only when
it is strictly positive, unboundedly otherwise — then return
`self.__fc_ret`.  The pair records how the call blocks and what it
returns. -/
def wait (h : MultiProcessedCall α ε κ) (timeout : Int) :
    JoinMode × Option α :=
  if h.state = CALL_STATE_INCOMPLETE then
    (if timeout > 0 then .joinBounded timeout else .joinUnbounded, h.fc_ret)
  else (.noJoin, h.fc_ret)

end MultiProcessedCall

/-! ## ThreadedCall (thread.py) -/

/-- The caller-visible fields of a `ThreadedCall` object. -/
structure ThreadedCall (α ε κ : Type) where
  exception : PyExc ε
  fid : Nat
  fc_ret : Option α
  state : Nat
  onComplete : Callback κ
  onError : Callback κ
deriving DecidableEq, Repr

namespace ThreadedCall

/-- `ThreadedCall.__init__`: the placeholder exception, `fid`, no return
value yet, state `CALL_STATE_INCOMPLETE`, `pass_` for both callbacks. -/
def init (α ε κ : Type) (fid : Nat) : ThreadedCall α ε κ :=
  { exception := .burstWhileNoTaskErrors
      "Burst called with no error on threaded task"
    fid := fid
    fc_ret := none
    state := CALL_STATE_INCOMPLETE
    onComplete := .pass_
    onError := .pass_ }

variable {α ε κ : Type}

/-- `ThreadedCall.__exe`: run the user function; on normal return store the
value, set Success and call `self.__onComplete(self.__fc_ret)`; on a raised
exception store it, set Error and call `self.__onError(self)` (the call
object itself, thread.py line 87); finally perform the guarded decrement of
the global call counter. -/
def exe (h : ThreadedCall α ε κ) (res : Except ε α) :
    ThreadedCall α ε κ × List (Action α ε κ) :=
  match res with
  | .ok v =>
      ({ h with fc_ret := some v, state := CALL_STATE_SUCCESS },
       [.onCompleteCalled h.onComplete (some v), .counterDecremented h.fid])
  | .error e =>
      ({ h with exception := .captured e, state := CALL_STATE_ERROR },
       [.onErrorCalledWithHandle h.onError, .counterDecremented h.fid])

/-- `ThreadedCall.on_complete`: store the callback, invoke it at once with
the stored return value when the state is already Success (and the
immediate flag is set), and return `self`. -/
def on_complete (h : ThreadedCall α ε κ) (func : κ)
    (immediate_callback_if_done : Bool) :
    ThreadedCall α ε κ × List (Action α ε κ) :=
  let h' := { h with onComplete := .user func }
  if h'.state = CALL_STATE_SUCCESS && immediate_callback_if_done then
    (h', [.onCompleteCalled h'.onComplete h'.fc_ret])
  else (h', [])

/-- `ThreadedCall.on_error`: store the callback, invoke it at once with the
stored exception when the state is already Error (and the immediate flag is
set), and return `self`. -/
def on_error (h : ThreadedCall α ε κ) (func : κ)
    (immediate_callback_if_done : Bool) :
    ThreadedCall α ε κ × List (Action α ε κ) :=
  let h' := { h with onError := .user func }
  if h'.state = CALL_STATE_ERROR && immediate_callback_if_done then
    (h', [.onErrorCalled h'.onError h'.exception])
  else (h', [])

/-- `ThreadedCall.burst`: `raise self.__exception`, unconditionally. -/
def burst (h : ThreadedCall α ε κ) : PyExc ε :=
  h.exception

/-- `ThreadedCall.wait`: same shape as the process path — join the worker
thread (bounded only for a strictly positive timeout) when the state is
still incomplete, then return `self.__fc_ret`. -/
def wait (h : ThreadedCall α ε κ) (timeout : Int) : JoinMode × Option α :=
  if h.state = CALL_STATE_INCOMPLETE then
    (if timeout > 0 then .joinBounded timeout else .joinUnbounded, h.fc_ret)
  else (.noJoin, h.fc_ret)

end ThreadedCall

/-! ## The decorators' admission sections and the counter updates -/

/-- The `with PROCESS_CALL_COUNTER_LOCK` block of `invoke_in_sp`'s wrapper
(process.py lines 151-160): when `fid` is in the table and its count is at
least `max_concurrent_execs` with `max_concurrent_execs != -1`, raise
`MaxConcurrentCallsLimitExceedException`; otherwise increment the count;
when `fid` is absent, set the count to 1. -/
def invoke_in_sp_admission {ε : Type} (max_concurrent_execs : Int)
    (fid : Nat) (tbl : Tbl) : Except (PyExc ε) Tbl :=
  match tblGet tbl fid with
  | some c =>
      if c ≥ max_concurrent_execs ∧ max_concurrent_execs ≠ -1 then
        .error (.maxConcurrentCallsLimitExceed
          "Already running! Multiprocessing function only allows max_concurrent_execs concurrent executions!")
      else .ok (tblSet tbl fid (c + 1))
  | none => .ok (tblSet tbl fid 1)

/-- The whole wrapper `invoke_in_sp` returns: run the admission section
under the lock, then (only on admission) construct and return a
`MultiProcessedCall`. -/
def invoke_in_sp_wrapper (α ε κ : Type) (max_concurrent_execs : Int)
    (terminate_on_return : Bool) (fid : Nat) (tbl : Tbl) :
    Except (PyExc ε) (Tbl × MultiProcessedCall α ε κ) :=
  match @invoke_in_sp_admission ε max_concurrent_execs fid tbl with
  | .error e => .error e
  | .ok tbl' => .ok (tbl', MultiProcessedCall.init α ε κ fid terminate_on_return)

/-- The `with FUN_CALL_COUNTER_LOCK` block of `invoke_in_thread`'s wrapper
(thread.py lines 103-112): the same admission logic on the thread path's
counter table. -/
def invoke_in_thread_admission {ε : Type} (max_concurrent_execs : Int)
    (fid : Nat) (tbl : Tbl) : Except (PyExc ε) Tbl :=
  match tblGet tbl fid with
  | some c =>
      if c ≥ max_concurrent_execs ∧ max_concurrent_execs ≠ -1 then
        .error (.maxConcurrentCallsLimitExceed
          "Already running ! Threaded function only allows max_concurrent_execs concurrent executions !")
      else .ok (tblSet tbl fid (c + 1))
  | none => .ok (tblSet tbl fid 1)

/-- The whole wrapper `invoke_in_thread` returns: run the admission section
under the lock, then (only on admission) construct and return a
`ThreadedCall`. -/
def invoke_in_thread_wrapper (α ε κ : Type) (max_concurrent_execs : Int)
    (fid : Nat) (tbl : Tbl) :
    Except (PyExc ε) (Tbl × ThreadedCall α ε κ) :=
  match @invoke_in_thread_admission ε max_concurrent_execs fid tbl with
  | .error e => .error e
  | .ok tbl' => .ok (tbl', ThreadedCall.init α ε κ fid)

/-- The counter-clearing block of `__sync_state` (process.py lines
132-135): under the lock, `if PROCESS_CALL_COUNTER[self.__fid] > 0:
PROCESS_CALL_COUNTER[self.__fid] -= 1`.  A lookup of an absent key is a
`KeyError`, which would propagate before any mutation. -/
def releaseCounter {ε : Type} (tbl : Tbl) (fid : Nat) : Except (PyExc ε) Tbl :=
  match tblGet tbl fid with
  | none => .error .keyError
  | some c => .ok (if c > 0 then tblSet tbl fid (c - 1) else tbl)

/-- One operation on a task identity's limiter slot: an invocation of the
wrapped function (the admission section) or the sync loop's release. -/
inductive CounterOp where
  | invoke : CounterOp
  | release : CounterOp
deriving DecidableEq, Repr

/-- The table after one operation.  A raised exception
(`MaxConcurrentCallsLimitExceedException` on rejection, `KeyError` on a
release of an absent key) propagates before any mutation, so the table is
unchanged on those paths. -/
def counterStep (max_concurrent_execs : Int) (fid : Nat) (tbl : Tbl) :
    CounterOp → Tbl
  | .invoke =>
      match @invoke_in_sp_admission Unit max_concurrent_execs fid tbl with
      | .ok tbl' => tbl'
      | .error _ => tbl
  | .release =>
      match @releaseCounter Unit tbl fid with
      | .ok tbl' => tbl'
      | .error _ => tbl

/-- The table after a sequence of operations on one task identity. -/
def counterRun (max_concurrent_execs : Int) (fid : Nat) (tbl : Tbl) :
    List CounterOp → Tbl
  | [] => tbl
  | op :: rest =>
      counterRun max_concurrent_execs fid
        (counterStep max_concurrent_execs fid tbl op) rest

/-! ## Helper lemmas -/

namespace MultiProcessedCall

variable {α ε κ : Type}

theorem init_state (fid : Nat) (tor : Bool) :
    (init α ε κ fid tor).state = CALL_STATE_INCOMPLETE := rfl

/-- The sync loop's `while` guard: once the state is terminal the loop body
never runs again, whatever else arrives. -/
theorem sync_state_of_terminal (h : MultiProcessedCall α ε κ)
    (polls : List (Poll α ε)) (proc : ProcState)
    (hterm : h.state ≠ CALL_STATE_INCOMPLETE) :
    sync_state h polls proc = (h, []) := by
  cases polls with
  | nil => rfl
  | cons p rest => simp [sync_state, hterm]

/-- A run of empty polls leaves the handle untouched and only logs. -/
theorem sync_state_all_empty (h : MultiProcessedCall α ε κ) (n : Nat)
    (proc : ProcState) (hinc : h.state = CALL_STATE_INCOMPLETE) :
    sync_state h (List.replicate n Poll.empty) proc
      = (h, List.replicate n (Action.timeoutLogged h.fid)) := by
  induction n with
  | zero => rfl
  | succ n ih =>
      simp only [List.replicate_succ, sync_state, hinc, if_pos,
        sync_state_step] at ih ⊢
      simp [ih]

theorem handleOutcome_fid (h : MultiProcessedCall α ε κ) (m : QMsg α ε) :
    (handleOutcome h m).fid = h.fid := by
  cases m <;> rfl

theorem handleOutcome_tor (h : MultiProcessedCall α ε κ) (m : QMsg α ε) :
    (handleOutcome h m).tor = h.tor := by
  cases m <;> rfl

theorem handleOutcome_terminal (h : MultiProcessedCall α ε κ) (m : QMsg α ε) :
    (handleOutcome h m).state ≠ CALL_STATE_INCOMPLETE := by
  cases m <;> simp [handleOutcome, CALL_STATE_SUCCESS, CALL_STATE_ERROR,
    CALL_STATE_INCOMPLETE]

end MultiProcessedCall

/-- The termination protocol never raises: every path either skips the kill
(the guard on aliveness fails) or invokes the kill on a process whose
aliveness the guard just confirmed. -/
theorem terminationProtocol_never_raises {α ε κ : Type} (tor : Bool)
    (p : ProcState) :
    @terminationProtocol α ε κ tor p = .ok (@terminationActions α ε κ tor p) := by
  simp only [terminationProtocol, terminationActions, os_kill, taskkill_run]
  by_cases h1 : (tor && p.aliveAtOutcome) = true
  · by_cases h2 : p.aliveAfterGrace = true
    · by_cases h3 : p.platform = "Windows" <;> simp [h1, h2, h3]
    · simp [h1, h2]
  · simp [h1]

namespace MultiProcessedCall

variable {α ε κ : Type}

/-- One loop body on an outcome message: state transition first, then the
termination actions, then the matching callback, then the counter
decrement; the resulting handle is exactly the outcome transition. -/
theorem sync_state_step_msg (h : MultiProcessedCall α ε κ) (m : QMsg α ε)
    (proc : ProcState) :
    sync_state_step h (.msg m) proc
      = (handleOutcome h m,
         .stateTransition (handleOutcome h m).state
           :: terminationActions h.tor proc
           ++ callbackActions (handleOutcome h m)
           ++ [.counterDecremented h.fid]) := by
  simp only [sync_state_step, terminationProtocol_never_raises,
    handleOutcome_fid, handleOutcome_tor]

/-- The sync loop on a poll stream whose first message arrives after `k`
timeouts: the loop logs the timeouts, processes that one message, and
exits without consuming anything after it. -/
theorem sync_state_first_outcome (h : MultiProcessedCall α ε κ)
    (m : QMsg α ε) (proc : ProcState) (k : Nat) (rest : List (Poll α ε))
    (hinc : h.state = CALL_STATE_INCOMPLETE) :
    sync_state h (List.replicate k Poll.empty ++ Poll.msg m :: rest) proc
      = (handleOutcome h m,
         List.replicate k (Action.timeoutLogged h.fid)
           ++ .stateTransition (handleOutcome h m).state
             :: terminationActions h.tor proc
             ++ callbackActions (handleOutcome h m)
             ++ [.counterDecremented h.fid]) := by
  induction k with
  | zero =>
      simp only [List.replicate_zero, List.nil_append, sync_state, hinc,
        if_pos, sync_state_step_msg,
        sync_state_of_terminal _ rest proc (handleOutcome_terminal h m),
        List.append_nil]
  | succ k ih =>
      simp only [List.replicate_succ, List.cons_append, sync_state, hinc,
        if_pos, sync_state_step, List.append_eq, ih, List.nil_append]

end MultiProcessedCall

theorem tblGet_tblSet_self (tbl : Tbl) (fid : Nat) (v : Int) :
    tblGet (tblSet tbl fid v) fid = some v := by
  induction tbl with
  | nil => simp [tblSet, tblGet]
  | cons kv rest ih =>
      obtain ⟨k, w⟩ := kv
      by_cases hk : k = fid <;> simp [tblSet, tblGet, hk, ih]

theorem countOf_tblSet_self (tbl : Tbl) (fid : Nat) (v : Int) :
    countOf (tblSet tbl fid v) fid = v := by
  simp [countOf, tblGet_tblSet_self]

theorem countOf_of_tblGet {tbl : Tbl} {fid : Nat} {c : Int}
    (hget : tblGet tbl fid = some c) : countOf tbl fid = c := by
  simp [countOf, hget]

/-- The per-identity limiter invariant: starting from a table whose count
for `fid` is non-negative (and within a positive bound), any sequence of
admissions and releases keeps it non-negative (and within the bound). -/
theorem counterRun_invariant (max_concurrent_execs : Int) (fid : Nat)
    (ops : List CounterOp) (tbl : Tbl)
    (h0 : 0 ≤ countOf tbl fid)
    (h1 : 1 ≤ max_concurrent_execs →
      countOf tbl fid ≤ max_concurrent_execs) :
    0 ≤ countOf (counterRun max_concurrent_execs fid tbl ops) fid
    ∧ (1 ≤ max_concurrent_execs →
      countOf (counterRun max_concurrent_execs fid tbl ops) fid
        ≤ max_concurrent_execs) := by
  induction ops generalizing tbl with
  | nil => exact ⟨h0, h1⟩
  | cons op rest ih =>
      refine ih (counterStep max_concurrent_execs fid tbl op) ?_ ?_
      all_goals
        cases op with
        | invoke =>
            cases hget : tblGet tbl fid with
            | none =>
                simp only [counterStep, invoke_in_sp_admission, hget,
                  countOf_tblSet_self]
                omega
            | some c =>
                have hc : countOf tbl fid = c := countOf_of_tblGet hget
                by_cases hcond : c ≥ max_concurrent_execs ∧ max_concurrent_execs ≠ -1
                · simp only [counterStep, invoke_in_sp_admission, hget,
                    if_pos hcond]
                  first
                    | exact hc ▸ h0
                    | exact hc ▸ h1
                · simp only [counterStep, invoke_in_sp_admission, hget,
                    if_neg hcond, countOf_tblSet_self]
                  rw [hc] at h0 h1
                  omega
        | release =>
            cases hget : tblGet tbl fid with
            | none =>
                simp only [counterStep, releaseCounter, hget]
                first
                  | exact h0
                  | exact h1
            | some c =>
                have hc : countOf tbl fid = c := countOf_of_tblGet hget
                rw [hc] at h0 h1
                by_cases hpos : c > 0
                · simp only [counterStep, releaseCounter, hget, if_pos hpos,
                    countOf_tblSet_self]
                  omega
                · simp only [counterStep, releaseCounter, hget, if_neg hpos, hc]
                  omega

/-! ## Claim theorems -/

/-- Claim C4 (amended): starting from the empty counter table, for every
task identity and every sequence of admissions and releases, the in-flight
count never becomes negative (the release is clamped at zero), and it never
exceeds the configured maximum whenever the maximum is bounded and
positive.  (The unamended claim — any bounded maximum — fails at maximum 0,
where the first admission of an identity absent from the table is admitted
unconditionally; see the counterexample.) -/
theorem C4_counter_bounds_for_positive_bounded_max :
    ∀ (max_concurrent_execs : Int) (fid : Nat) (ops : List CounterOp),
      0 ≤ countOf (counterRun max_concurrent_execs fid [] ops) fid
      ∧ (1 ≤ max_concurrent_execs →
        countOf (counterRun max_concurrent_execs fid [] ops) fid
          ≤ max_concurrent_execs) := by
  intro max_concurrent_execs fid ops
  exact counterRun_invariant max_concurrent_execs fid ops []
    (by simp [countOf, tblGet])
    (by intro hm; simp only [countOf, tblGet, Option.getD_none]; omega)

/-- Witness for C4 at a concrete run: maximum 2, identity 3, the sequence
admit, admit, release, admit stays within the bounds. -/
theorem C4_witness :
    0 ≤ countOf (counterRun 2 3 []
        [CounterOp.invoke, CounterOp.invoke, CounterOp.release,
         CounterOp.invoke]) 3
    ∧ countOf (counterRun 2 3 []
        [CounterOp.invoke, CounterOp.invoke, CounterOp.release,
         CounterOp.invoke]) 3 ≤ 2 :=
  ⟨(C4_counter_bounds_for_positive_bounded_max 2 3
      [CounterOp.invoke, CounterOp.invoke, CounterOp.release,
       CounterOp.invoke]).1,
   (C4_counter_bounds_for_positive_bounded_max 2 3
      [CounterOp.invoke, CounterOp.invoke, CounterOp.release,
       CounterOp.invoke]).2 (by decide)⟩

/-- Counterexample to C4 as stated: with the bounded maximum 0, a single
admission of a fresh identity is admitted (the `fid not in table` branch
skips the limit check) and drives the in-flight count to 1, exceeding the
configured maximum. -/
theorem C4_counterexample :
    (0 : Int) ≠ -1
    ∧ countOf (counterRun 0 7 [] [CounterOp.invoke]) 7 > 0 := by
  decide

/-- Claim C5 (amended): for every call of a wrapped function with a bounded
positive maximum whose current in-flight count is at least the maximum, the
invocation raises `MaxConcurrentCallsLimitExceedException` synchronously,
no call object is created (the wrapper returns the error, not a handle),
and the limiter table is left unchanged; with the unbounded sentinel `-1`
the invocation is always admitted and the identity's count is incremented
by one.  Both the process and the thread decorator behave this way.  (The
unamended claim — any bounded maximum — fails at maximum 0 with the
identity absent from the table, where the count 0 is at least the maximum
yet the call is admitted; see the counterexample.) -/
theorem C5_rejection_and_unbounded_admission :
    ∀ (α ε κ : Type) (max_concurrent_execs : Int) (tor : Bool) (fid : Nat)
      (tbl : Tbl),
      (1 ≤ max_concurrent_execs →
        max_concurrent_execs ≤ countOf tbl fid →
        (∃ msg, invoke_in_sp_wrapper α ε κ max_concurrent_execs tor fid tbl
            = .error (.maxConcurrentCallsLimitExceed msg))
        ∧ counterStep max_concurrent_execs fid tbl .invoke = tbl
        ∧ (∃ msg, invoke_in_thread_wrapper α ε κ max_concurrent_execs fid tbl
            = .error (.maxConcurrentCallsLimitExceed msg)))
      ∧ (invoke_in_sp_wrapper α ε κ (-1) tor fid tbl
          = .ok (tblSet tbl fid (countOf tbl fid + 1),
                 MultiProcessedCall.init α ε κ fid tor)
        ∧ countOf (tblSet tbl fid (countOf tbl fid + 1)) fid
            = countOf tbl fid + 1
        ∧ invoke_in_thread_wrapper α ε κ (-1) fid tbl
          = .ok (tblSet tbl fid (countOf tbl fid + 1),
                 ThreadedCall.init α ε κ fid)) := by
  intro α ε κ max_concurrent_execs tor fid tbl
  constructor
  · intro hmax hcount
    cases hget : tblGet tbl fid with
    | none =>
        exfalso
        have : countOf tbl fid = 0 := by simp [countOf, hget]
        omega
    | some c =>
        have hc : countOf tbl fid = c := countOf_of_tblGet hget
        have hcond : c ≥ max_concurrent_execs ∧ max_concurrent_execs ≠ -1 :=
          ⟨by omega, by omega⟩
        refine ⟨?_, ?_, ?_⟩
        · exact ⟨"Already running! Multiprocessing function only allows max_concurrent_execs concurrent executions!",
            by simp [invoke_in_sp_wrapper, invoke_in_sp_admission, hget, hcond]⟩
        · simp [counterStep, invoke_in_sp_admission, hget, hcond]
        · exact ⟨"Already running ! Threaded function only allows max_concurrent_execs concurrent executions !",
            by simp [invoke_in_thread_wrapper, invoke_in_thread_admission, hget,
              hcond]⟩
  · cases hget : tblGet tbl fid with
    | none =>
        have hc : countOf tbl fid = 0 := by simp [countOf, hget]
        refine ⟨?_, ?_, ?_⟩
        · simp [invoke_in_sp_wrapper, invoke_in_sp_admission, hget, hc]
        · simp [countOf_tblSet_self]
        · simp [invoke_in_thread_wrapper, invoke_in_thread_admission, hget, hc]
    | some c =>
        have hc : countOf tbl fid = c := countOf_of_tblGet hget
        have hcond : ¬ (c ≥ (-1 : Int) ∧ (-1 : Int) ≠ -1) := by simp
        refine ⟨?_, ?_, ?_⟩
        · simp [invoke_in_sp_wrapper, invoke_in_sp_admission, hget, hcond, hc]
        · simp [countOf_tblSet_self]
        · simp [invoke_in_thread_wrapper, invoke_in_thread_admission, hget,
            hcond, hc]

/-- Witness for C5 at a concrete table: identity 7 with one in-flight call
and maximum 1 is rejected with the table unchanged, and the unbounded
sentinel admits it with the count pushed to 2. -/
theorem C5_witness :
    (∃ msg, invoke_in_sp_wrapper Nat Nat Nat 1 false 7 [(7, 1)]
        = .error (.maxConcurrentCallsLimitExceed msg))
    ∧ counterStep 1 7 [(7, 1)] .invoke = [(7, 1)]
    ∧ invoke_in_sp_wrapper Nat Nat Nat (-1) false 7 [(7, 1)]
        = .ok ([(7, 2)], MultiProcessedCall.init Nat Nat Nat 7 false) :=
  ⟨((C5_rejection_and_unbounded_admission Nat Nat Nat 1 false 7
      [(7, 1)]).1 (by decide) (by decide)).1,
   ((C5_rejection_and_unbounded_admission Nat Nat Nat 1 false 7
      [(7, 1)]).1 (by decide) (by decide)).2.1,
   (C5_rejection_and_unbounded_admission Nat Nat Nat (-1) false 7
      [(7, 1)]).2.1⟩

/-- Counterexample to C5 as stated: with the bounded maximum 0 and identity
7 absent from the table, the current in-flight count 0 is at least the
maximum, yet the wrapper admits the call, creates a handle and sets the
count to 1. -/
theorem C5_counterexample :
    (0 : Int) ≠ -1
    ∧ countOf ([] : Tbl) 7 ≥ 0
    ∧ invoke_in_sp_wrapper Nat Nat Nat 0 false 7 []
        = .ok ([(7, 1)], MultiProcessedCall.init Nat Nat Nat 7 false) :=
  ⟨by decide, by decide, rfl⟩

/-- Claim C2: for every user function outcome, the worker trampoline
`mp_exec_wrapper` sends exactly one Outcome Message on the Result Channel —
a `success_set`-tagged message with the return value on normal return, an
`exception_set`-tagged message with the captured exception on a raise — the
two tags are mutually exclusive, and no invocation sends zero or two
messages. -/
theorem C2_trampoline_sends_exactly_one_outcome :
    ∀ (α ε : Type) (res : Except ε α) (v : α) (e : ε),
      (mp_exec_wrapper res).length = 1
      ∧ mp_exec_wrapper (Except.ok v : Except ε α) = [QMsg.success_set v]
      ∧ mp_exec_wrapper (Except.error e : Except ε α) = [QMsg.exception_set e]
      ∧ (QMsg.success_set v : QMsg α ε) ≠ QMsg.exception_set e := by
  intro α ε res v e
  refine ⟨?_, rfl, rfl, fun hcon => QMsg.noConfusion hcon⟩
  cases res <;> rfl

/-- Claim C9: when the worker process dies without ever sending an Outcome
Message (every poll of the Result Channel comes back empty), the
Synchronization Loop keeps polling — `n` empty polls produce `n` logged
timeouts and leave the handle exactly as constructed — the state never
leaves `CALL_STATE_INCOMPLETE`, no callback fires (neither from the loop
nor at registration), and `wait` without a positive caller-supplied timeout
joins the sync thread without any bound. -/
theorem C9_worker_death_without_outcome_polls_forever :
    ∀ (α ε κ : Type) (fid : Nat) (tor : Bool) (n : Nat) (proc : ProcState)
      (t : Int) (f : κ),
      MultiProcessedCall.sync_state (MultiProcessedCall.init α ε κ fid tor)
          (List.replicate n Poll.empty) proc
        = (MultiProcessedCall.init α ε κ fid tor,
           List.replicate n (Action.timeoutLogged fid))
      ∧ (MultiProcessedCall.init α ε κ fid tor).state = CALL_STATE_INCOMPLETE
      ∧ (t ≤ 0 →
          MultiProcessedCall.wait (MultiProcessedCall.init α ε κ fid tor) t
            = (JoinMode.joinUnbounded, none))
      ∧ MultiProcessedCall.on_complete (MultiProcessedCall.init α ε κ fid tor) f true
          = ({ MultiProcessedCall.init α ε κ fid tor with onComplete := .user f }, [])
      ∧ MultiProcessedCall.on_error (MultiProcessedCall.init α ε κ fid tor) f true
          = ({ MultiProcessedCall.init α ε κ fid tor with onError := .user f }, []) := by
  intro α ε κ fid tor n proc t f
  refine ⟨MultiProcessedCall.sync_state_all_empty _ n proc rfl, rfl, ?_, ?_, ?_⟩
  · intro ht
    have : ¬ (t > 0) := by omega
    simp [MultiProcessedCall.wait, MultiProcessedCall.init,
      CALL_STATE_INCOMPLETE, this]
  · simp [MultiProcessedCall.on_complete, MultiProcessedCall.init,
      CALL_STATE_SUCCESS, CALL_STATE_INCOMPLETE]
  · simp [MultiProcessedCall.on_error, MultiProcessedCall.init,
      CALL_STATE_ERROR, CALL_STATE_INCOMPLETE]

/-- Witness for C9 at a concrete handle: three empty polls leave the handle
as built and `wait` with the default timeout 0 blocks unboundedly. -/
theorem C9_witness :
    MultiProcessedCall.sync_state (MultiProcessedCall.init Nat Nat Nat 5 false)
        (List.replicate 3 Poll.empty) ⟨"Linux", 11, true, true⟩
      = (MultiProcessedCall.init Nat Nat Nat 5 false,
         List.replicate 3 (Action.timeoutLogged 5))
    ∧ MultiProcessedCall.wait (MultiProcessedCall.init Nat Nat Nat 5 false) 0
        = (JoinMode.joinUnbounded, none) :=
  ⟨(C9_worker_death_without_outcome_polls_forever Nat Nat Nat 5 false 3
      ⟨"Linux", 11, true, true⟩ 0 0).1,
   (C9_worker_death_without_outcome_polls_forever Nat Nat Nat 5 false 3
      ⟨"Linux", 11, true, true⟩ 0 0).2.2.1 (by decide)⟩

/-- Claim C10: on a Task Handle still in the Incomplete state, `wait` with
the default timeout 0 or a negative timeout joins without any bound; the
timeout bounds the block exactly when it is strictly positive; and an
incomplete handle never takes the no-join path, so a zero-duration
non-blocking poll cannot be requested through `wait`.  Both the process and
the thread path behave this way. -/
theorem C10_wait_timeout_bounds_only_when_positive :
    ∀ (α ε κ : Type) (h : MultiProcessedCall α ε κ) (ht : ThreadedCall α ε κ)
      (t : Int),
      (h.state = CALL_STATE_INCOMPLETE →
        ((MultiProcessedCall.wait h t).1 = JoinMode.joinBounded t ↔ 0 < t)
        ∧ (t ≤ 0 → (MultiProcessedCall.wait h t).1 = JoinMode.joinUnbounded)
        ∧ (MultiProcessedCall.wait h 0).1 = JoinMode.joinUnbounded
        ∧ (MultiProcessedCall.wait h t).1 ≠ JoinMode.noJoin)
      ∧ (ht.state = CALL_STATE_INCOMPLETE →
        ((ThreadedCall.wait ht t).1 = JoinMode.joinBounded t ↔ 0 < t)
        ∧ (t ≤ 0 → (ThreadedCall.wait ht t).1 = JoinMode.joinUnbounded)
        ∧ (ThreadedCall.wait ht 0).1 = JoinMode.joinUnbounded
        ∧ (ThreadedCall.wait ht t).1 ≠ JoinMode.noJoin) := by
  intro α ε κ h ht t
  constructor
  · intro hinc
    refine ⟨?_, ?_, ?_, ?_⟩
    · by_cases hp : t > 0 <;> simp [MultiProcessedCall.wait, hinc, hp]
    · intro hle
      have : ¬ (t > 0) := by omega
      simp [MultiProcessedCall.wait, hinc, this]
    · simp [MultiProcessedCall.wait, hinc]
    · by_cases hp : t > 0 <;> simp [MultiProcessedCall.wait, hinc, hp]
  · intro hinc
    refine ⟨?_, ?_, ?_, ?_⟩
    · by_cases hp : t > 0 <;> simp [ThreadedCall.wait, hinc, hp]
    · intro hle
      have : ¬ (t > 0) := by omega
      simp [ThreadedCall.wait, hinc, this]
    · simp [ThreadedCall.wait, hinc]
    · by_cases hp : t > 0 <;> simp [ThreadedCall.wait, hinc, hp]

/-- Witness for C10 at concrete incomplete handles: timeout -7 and the
default 0 both join unboundedly, on both paths. -/
theorem C10_witness :
    (MultiProcessedCall.wait (MultiProcessedCall.init Nat Nat Nat 2 true) (-7)).1
        = JoinMode.joinUnbounded
    ∧ (ThreadedCall.wait (ThreadedCall.init Nat Nat Nat 2) 0).1
        = JoinMode.joinUnbounded :=
  ⟨(C10_wait_timeout_bounds_only_when_positive Nat Nat Nat
      (MultiProcessedCall.init Nat Nat Nat 2 true)
      (ThreadedCall.init Nat Nat Nat 2) (-7)).1 rfl |>.2.1 (by decide),
   (C10_wait_timeout_bounds_only_when_positive Nat Nat Nat
      (MultiProcessedCall.init Nat Nat Nat 2 true)
      (ThreadedCall.init Nat Nat Nat 2) 0).2 rfl |>.2.2.1⟩

/-- Claim C1: on an incomplete handle, the Synchronization Loop logs the
empty polls before the Outcome Message, then — in this order — transitions
the state (to Success or Error, matching the message's tag), runs the
termination actions, invokes the matching registered callback with the
terminal value, and releases the limiter slot; it consumes nothing after
that one message (the action trace is independent of `rest`), the resulting
state is terminal, and rerunning the loop on the terminal handle consumes
nothing and changes nothing — it never observes a second message and never
leaves a terminal state. -/
theorem C1_outcome_ordering_and_single_shot :
    ∀ (α ε κ : Type) (h : MultiProcessedCall α ε κ) (m : QMsg α ε)
      (proc proc' : ProcState) (k : Nat) (rest polls' : List (Poll α ε)),
      h.state = CALL_STATE_INCOMPLETE →
      MultiProcessedCall.sync_state h
          (List.replicate k Poll.empty ++ Poll.msg m :: rest) proc
        = (MultiProcessedCall.handleOutcome h m,
           List.replicate k (Action.timeoutLogged h.fid)
             ++ Action.stateTransition
                   (MultiProcessedCall.handleOutcome h m).state
               :: terminationActions h.tor proc
               ++ MultiProcessedCall.callbackActions
                    (MultiProcessedCall.handleOutcome h m)
               ++ [Action.counterDecremented h.fid])
      ∧ (∀ v, m = QMsg.success_set v →
          (MultiProcessedCall.handleOutcome h m).state = CALL_STATE_SUCCESS
          ∧ MultiProcessedCall.callbackActions
                (MultiProcessedCall.handleOutcome h m)
              = [Action.onCompleteCalled h.onComplete (some v)])
      ∧ (∀ e, m = QMsg.exception_set e →
          (MultiProcessedCall.handleOutcome h m).state = CALL_STATE_ERROR
          ∧ MultiProcessedCall.callbackActions
                (MultiProcessedCall.handleOutcome h m)
              = [Action.onErrorCalled h.onError (PyExc.captured e)])
      ∧ (MultiProcessedCall.handleOutcome h m).state ≠ CALL_STATE_INCOMPLETE
      ∧ MultiProcessedCall.sync_state (MultiProcessedCall.handleOutcome h m)
            polls' proc'
          = (MultiProcessedCall.handleOutcome h m, []) := by
  intro α ε κ h m proc proc' k rest polls' hinc
  refine ⟨MultiProcessedCall.sync_state_first_outcome h m proc k rest hinc,
    ?_, ?_, MultiProcessedCall.handleOutcome_terminal h m,
    MultiProcessedCall.sync_state_of_terminal _ polls' proc'
      (MultiProcessedCall.handleOutcome_terminal h m)⟩
  · intro v hv
    subst hv
    exact ⟨rfl, by simp [MultiProcessedCall.callbackActions,
      MultiProcessedCall.handleOutcome, CALL_STATE_SUCCESS]⟩
  · intro e he
    subst he
    exact ⟨rfl, by simp [MultiProcessedCall.callbackActions,
      MultiProcessedCall.handleOutcome, CALL_STATE_SUCCESS, CALL_STATE_ERROR]⟩

/-- Witness for C1 at a concrete run: one timeout, then a success message,
then a stray second message that the loop never consumes. -/
theorem C1_witness :
    MultiProcessedCall.sync_state (MultiProcessedCall.init Nat Nat Nat 3 false)
        (List.replicate 1 Poll.empty
          ++ Poll.msg (QMsg.success_set 4) :: [Poll.msg (QMsg.exception_set 9)])
        ⟨"Linux", 8, false, false⟩
      = (MultiProcessedCall.handleOutcome
           (MultiProcessedCall.init Nat Nat Nat 3 false) (QMsg.success_set 4),
         List.replicate 1 (Action.timeoutLogged 3)
           ++ Action.stateTransition
                 (MultiProcessedCall.handleOutcome
                   (MultiProcessedCall.init Nat Nat Nat 3 false)
                   (QMsg.success_set 4)).state
             :: terminationActions false ⟨"Linux", 8, false, false⟩
             ++ MultiProcessedCall.callbackActions
                  (MultiProcessedCall.handleOutcome
                    (MultiProcessedCall.init Nat Nat Nat 3 false)
                    (QMsg.success_set 4))
             ++ [Action.counterDecremented 3]) :=
  (C1_outcome_ordering_and_single_shot Nat Nat Nat
    (MultiProcessedCall.init Nat Nat Nat 3 false) (QMsg.success_set 4)
    ⟨"Linux", 8, false, false⟩ ⟨"Linux", 8, false, false⟩ 1
    [Poll.msg (QMsg.exception_set 9)] [] rfl).1

/-- Claim C3: for an invocation configured with termination-on-return whose
worker is still alive when the outcome is observed, the loop first requests
cooperative termination, then waits the fixed 5-second grace window, and
escalates to the forceful platform-dependent kill (`taskkill /F` on
Windows, `SIGKILL` to the pid otherwise) only if the worker is still alive
after the grace window; the protocol never raises — on an already-dead
worker it is a no-op rather than an error — and the handle the loop
produces is exactly the outcome transition, independent of the worker's
aliveness, so the termination attempt never affects the Task Handle's
state. -/
theorem C3_termination_protocol_escalation :
    ∀ (α ε κ : Type) (tor : Bool) (p : ProcState)
      (h : MultiProcessedCall α ε κ) (m : QMsg α ε) (proc proc' : ProcState),
      @terminationProtocol α ε κ tor p = .ok (@terminationActions α ε κ tor p)
      ∧ (p.aliveAtOutcome = false → @terminationProtocol α ε κ tor p = .ok [])
      ∧ (tor = false → @terminationProtocol α ε κ tor p = .ok [])
      ∧ (tor = true → p.aliveAtOutcome = true → p.aliveAfterGrace = false →
          @terminationProtocol α ε κ tor p
            = .ok [Action.terminateRequested p.pid, Action.joinGrace 5])
      ∧ (tor = true → p.aliveAtOutcome = true → p.aliveAfterGrace = true →
          @terminationProtocol α ε κ tor p
            = .ok [Action.terminateRequested p.pid, Action.joinGrace 5,
                   if p.platform = "Windows" then Action.taskkillForce p.pid
                   else Action.kill_SIGKILL p.pid])
      ∧ (MultiProcessedCall.sync_state_step h (Poll.msg m) proc).1
          = MultiProcessedCall.handleOutcome h m
      ∧ (MultiProcessedCall.sync_state_step h (Poll.msg m) proc).1
          = (MultiProcessedCall.sync_state_step h (Poll.msg m) proc').1 := by
  intro α ε κ tor p h m proc proc'
  refine ⟨terminationProtocol_never_raises tor p, ?_, ?_, ?_, ?_, ?_, ?_⟩
  · intro ha; simp [terminationProtocol, ha]
  · intro ht; simp [terminationProtocol, ht]
  · intro ht ha hg; simp [terminationProtocol, ht, ha, hg]
  · intro ht ha hg
    by_cases hw : p.platform = "Windows" <;>
      simp [terminationProtocol, os_kill, taskkill_run, ht, ha, hg, hw]
  · simp [MultiProcessedCall.sync_state_step_msg]
  · simp [MultiProcessedCall.sync_state_step_msg]

/-- Witness for C3 at concrete worker states: a stubborn worker on a
POSIX-like platform gets terminate, the 5-second grace join, then
`SIGKILL`; an already-dead worker gets no action and no raised error. -/
theorem C3_witness :
    @terminationProtocol Nat Nat Nat true ⟨"Linux", 9, true, true⟩
      = .ok [Action.terminateRequested 9, Action.joinGrace 5,
             Action.kill_SIGKILL 9]
    ∧ @terminationProtocol Nat Nat Nat true ⟨"Linux", 9, false, false⟩
      = .ok [] := by
  constructor
  · have h5 := (C3_termination_protocol_escalation Nat Nat Nat true
      ⟨"Linux", 9, true, true⟩
      (MultiProcessedCall.init Nat Nat Nat 0 true) (QMsg.success_set 0)
      ⟨"Linux", 9, true, true⟩ ⟨"Linux", 9, true, true⟩).2.2.2.2.1
      rfl rfl rfl
    simpa using h5
  · exact (C3_termination_protocol_escalation Nat Nat Nat true
      ⟨"Linux", 9, false, false⟩
      (MultiProcessedCall.init Nat Nat Nat 0 true) (QMsg.success_set 0)
      ⟨"Linux", 9, false, false⟩ ⟨"Linux", 9, false, false⟩).2.1 rfl

/-- The stored-value invariant of a `MultiProcessedCall`: no return value
before completion, a present return value exactly in the Success state,
and `None` in the Error state. -/
def MPCStoredInv {α ε κ : Type} (h : MultiProcessedCall α ε κ) : Prop :=
  (h.state = CALL_STATE_INCOMPLETE → h.fc_ret = none)
  ∧ (h.state = CALL_STATE_SUCCESS → h.fc_ret ≠ none)
  ∧ (h.state = CALL_STATE_ERROR → h.fc_ret = none)

theorem stored_inv_init {α ε κ : Type} (fid : Nat) (tor : Bool) :
    MPCStoredInv (MultiProcessedCall.init α ε κ fid tor) := by
  refine ⟨fun _ => rfl, fun hcon => ?_, fun _ => rfl⟩
  simp [MultiProcessedCall.init, CALL_STATE_SUCCESS,
    CALL_STATE_INCOMPLETE] at hcon

theorem stored_inv_sync {α ε κ : Type} (polls : List (Poll α ε))
    (proc : ProcState) :
    ∀ (h : MultiProcessedCall α ε κ), MPCStoredInv h →
      MPCStoredInv (MultiProcessedCall.sync_state h polls proc).1 := by
  induction polls with
  | nil => intro h hI; exact hI
  | cons p rest ih =>
      intro h hI
      by_cases hg : h.state = CALL_STATE_INCOMPLETE
      · have hstep : MPCStoredInv (MultiProcessedCall.sync_state_step h p proc).1 := by
          cases p with
          | empty => exact hI
          | msg m =>
              have h1 : (MultiProcessedCall.sync_state_step h (Poll.msg m) proc).1
                  = MultiProcessedCall.handleOutcome h m := by
                simp [MultiProcessedCall.sync_state_step_msg]
              rw [h1]
              cases m with
              | success_set v =>
                  refine ⟨?_, ?_, ?_⟩ <;>
                    simp [MultiProcessedCall.handleOutcome,
                      CALL_STATE_INCOMPLETE, CALL_STATE_SUCCESS,
                      CALL_STATE_ERROR]
              | exception_set e =>
                  have hf : h.fc_ret = none := hI.1 hg
                  refine ⟨?_, ?_, ?_⟩ <;>
                    simp [MultiProcessedCall.handleOutcome,
                      CALL_STATE_INCOMPLETE, CALL_STATE_SUCCESS,
                      CALL_STATE_ERROR, hf]
        simp only [MultiProcessedCall.sync_state, hg, if_pos]
        exact ih _ hstep
      · rw [MultiProcessedCall.sync_state_of_terminal h (p :: rest) proc hg]
        exact hI

/-- Claim C6: on any handle the sync loop can produce, `burst` re-raises
the captured worker exception when the state is Error, and when the state
is not Error — Success after a normal return, or Incomplete after timeouts
only — it raises the distinct `BurstWhileNoTaskErrorsException` (the
repository's no-error-to-burst condition) and never a captured user
exception. -/
theorem C6_burst_raises_captured_or_no_error_condition :
    ∀ (α ε κ : Type) (fid : Nat) (tor : Bool) (k n : Nat) (e : ε) (v : α)
      (rest : List (Poll α ε)) (proc : ProcState),
      (MultiProcessedCall.burst
          (MultiProcessedCall.sync_state (MultiProcessedCall.init α ε κ fid tor)
            (List.replicate k Poll.empty
              ++ Poll.msg (QMsg.exception_set e) :: rest) proc).1
        = PyExc.captured e
       ∧ (MultiProcessedCall.sync_state (MultiProcessedCall.init α ε κ fid tor)
            (List.replicate k Poll.empty
              ++ Poll.msg (QMsg.exception_set e) :: rest) proc).1.state
          = CALL_STATE_ERROR)
      ∧ (MultiProcessedCall.burst
          (MultiProcessedCall.sync_state (MultiProcessedCall.init α ε κ fid tor)
            (List.replicate k Poll.empty
              ++ Poll.msg (QMsg.success_set v) :: rest) proc).1
          = PyExc.burstWhileNoTaskErrors
              "Burst called with no error on multiprocessing task"
         ∧ (MultiProcessedCall.sync_state (MultiProcessedCall.init α ε κ fid tor)
             (List.replicate k Poll.empty
               ++ Poll.msg (QMsg.success_set v) :: rest) proc).1.state
            = CALL_STATE_SUCCESS
         ∧ (MultiProcessedCall.burst
             (MultiProcessedCall.sync_state (MultiProcessedCall.init α ε κ fid tor)
               (List.replicate k Poll.empty
                 ++ Poll.msg (QMsg.success_set v) :: rest) proc).1).isCaptured
            = false)
      ∧ (MultiProcessedCall.burst
          (MultiProcessedCall.sync_state (MultiProcessedCall.init α ε κ fid tor)
            (List.replicate n Poll.empty) proc).1
          = PyExc.burstWhileNoTaskErrors
              "Burst called with no error on multiprocessing task"
         ∧ (MultiProcessedCall.sync_state (MultiProcessedCall.init α ε κ fid tor)
             (List.replicate n Poll.empty) proc).1.state
            = CALL_STATE_INCOMPLETE
         ∧ (MultiProcessedCall.burst
             (MultiProcessedCall.sync_state (MultiProcessedCall.init α ε κ fid tor)
               (List.replicate n Poll.empty) proc).1).isCaptured = false) := by
  intro α ε κ fid tor k n e v rest proc
  have herr := MultiProcessedCall.sync_state_first_outcome
    (MultiProcessedCall.init α ε κ fid tor) (QMsg.exception_set e) proc k rest rfl
  have hsuc := MultiProcessedCall.sync_state_first_outcome
    (MultiProcessedCall.init α ε κ fid tor) (QMsg.success_set v) proc k rest rfl
  have hemp := MultiProcessedCall.sync_state_all_empty
    (MultiProcessedCall.init α ε κ fid tor) n proc rfl
  refine ⟨⟨?_, ?_⟩, ⟨?_, ?_, ?_⟩, ⟨?_, ?_, ?_⟩⟩ <;>
    first
      | (rw [herr]; rfl)
      | (rw [hsuc]; rfl)
      | (rw [hemp]; rfl)

/-- Claim C7: registering a completion callback on a handle already in the
Success state (or an error callback on a handle already in the Error state)
invokes that callback exactly once, synchronously within the registration
call, with the stored terminal value — and the sync loop, which exits on a
terminal state, never invokes it again; registration returns the handle
itself (the same handle with only the callback slot updated).  Both the
process and the thread path behave this way. -/
theorem C7_late_registration_fires_once_synchronously :
    ∀ (α ε κ : Type) (h : MultiProcessedCall α ε κ) (ht : ThreadedCall α ε κ)
      (f : κ) (polls : List (Poll α ε)) (proc : ProcState),
      (h.state = CALL_STATE_SUCCESS →
        MultiProcessedCall.on_complete h f true
          = ({ h with onComplete := .user f },
             [Action.onCompleteCalled (.user f) h.fc_ret])
        ∧ MultiProcessedCall.sync_state h polls proc = (h, []))
      ∧ (h.state = CALL_STATE_ERROR →
        MultiProcessedCall.on_error h f true
          = ({ h with onError := .user f },
             [Action.onErrorCalled (.user f) h.exception])
        ∧ MultiProcessedCall.sync_state h polls proc = (h, []))
      ∧ (ht.state = CALL_STATE_SUCCESS →
        ThreadedCall.on_complete ht f true
          = ({ ht with onComplete := .user f },
             [Action.onCompleteCalled (.user f) ht.fc_ret]))
      ∧ (ht.state = CALL_STATE_ERROR →
        ThreadedCall.on_error ht f true
          = ({ ht with onError := .user f },
             [Action.onErrorCalled (.user f) ht.exception])) := by
  intro α ε κ h ht f polls proc
  refine ⟨?_, ?_, ?_, ?_⟩
  · intro hs
    refine ⟨by simp [MultiProcessedCall.on_complete, hs], ?_⟩
    refine MultiProcessedCall.sync_state_of_terminal h polls proc ?_
    rw [hs]; decide
  · intro hs
    refine ⟨?_, ?_⟩
    · simp only [MultiProcessedCall.on_error, hs]
      simp [CALL_STATE_ERROR]
    · refine MultiProcessedCall.sync_state_of_terminal h polls proc ?_
      rw [hs]; decide
  · intro hs
    simp [ThreadedCall.on_complete, hs]
  · intro hs
    simp only [ThreadedCall.on_error, hs]
    simp [CALL_STATE_ERROR]

/-- Witness for C7 at concrete terminal handles: a Success-state process
handle fires the fresh completion callback with the stored result 5, and an
Error-state thread handle fires the fresh error callback with the captured
exception 9. -/
theorem C7_witness :
    MultiProcessedCall.on_complete
        (⟨PyExc.burstWhileNoTaskErrors "b", 3, some 5, 1, false,
          Callback.pass_, Callback.pass_⟩ : MultiProcessedCall Nat Nat Nat)
        77 true
      = (({ (⟨PyExc.burstWhileNoTaskErrors "b", 3, some 5, 1, false,
             Callback.pass_, Callback.pass_⟩ : MultiProcessedCall Nat Nat Nat)
            with onComplete := .user 77 }),
         [Action.onCompleteCalled (.user 77) (some 5)])
    ∧ ThreadedCall.on_error
        (⟨PyExc.captured 9, 3, none, 2, Callback.pass_, Callback.pass_⟩ :
          ThreadedCall Nat Nat Nat) 88 true
      = (({ (⟨PyExc.captured 9, 3, none, 2, Callback.pass_, Callback.pass_⟩ :
             ThreadedCall Nat Nat Nat) with onError := .user 88 }),
         [Action.onErrorCalled (.user 88) (PyExc.captured 9)]) :=
  ⟨((C7_late_registration_fires_once_synchronously Nat Nat Nat
      (⟨PyExc.burstWhileNoTaskErrors "b", 3, some 5, 1, false,
        Callback.pass_, Callback.pass_⟩ : MultiProcessedCall Nat Nat Nat)
      (⟨PyExc.captured 9, 3, none, 2, Callback.pass_, Callback.pass_⟩ :
        ThreadedCall Nat Nat Nat) 77 [] ⟨"Linux", 1, false, false⟩).1 rfl).1,
   by
    have := (C7_late_registration_fires_once_synchronously Nat Nat Nat
      (⟨PyExc.burstWhileNoTaskErrors "b", 3, some 5, 1, false,
        Callback.pass_, Callback.pass_⟩ : MultiProcessedCall Nat Nat Nat)
      (⟨PyExc.captured 9, 3, none, 2, Callback.pass_, Callback.pass_⟩ :
        ThreadedCall Nat Nat Nat) 88 [] ⟨"Linux", 1, false, false⟩).2.2.2 rfl
    simpa using this⟩

/-- Claim C8: on any handle the sync loop (process path) or the worker body
(thread path) can produce whose state is terminal, `wait` skips the join and
returns immediately; its value is read from the unchanged handle, so
repeated calls return the same value whatever their timeouts (an idempotent
read); the value returned is the stored result (present) in the Success
state and `None` (absent) in the Error state; and nothing ever mutates a
terminal handle again. -/
theorem C8_wait_on_terminal_is_immediate_and_idempotent :
    ∀ (α ε κ : Type) (fid fid2 : Nat) (tor : Bool)
      (polls polls' : List (Poll α ε)) (proc proc' : ProcState) (t t' : Int)
      (res : Except ε α) (h : MultiProcessedCall α ε κ)
      (ht : ThreadedCall α ε κ),
      h = (MultiProcessedCall.sync_state (MultiProcessedCall.init α ε κ fid tor)
            polls proc).1 →
      ht = (ThreadedCall.exe (ThreadedCall.init α ε κ fid2) res).1 →
      (h.state ≠ CALL_STATE_INCOMPLETE →
        MultiProcessedCall.wait h t = (JoinMode.noJoin, h.fc_ret)
        ∧ MultiProcessedCall.wait h t' = MultiProcessedCall.wait h t
        ∧ (h.state = CALL_STATE_SUCCESS → h.fc_ret ≠ none)
        ∧ (h.state = CALL_STATE_ERROR → h.fc_ret = none)
        ∧ MultiProcessedCall.sync_state h polls' proc' = (h, []))
      ∧ (ht.state ≠ CALL_STATE_INCOMPLETE
        ∧ ThreadedCall.wait ht t = (JoinMode.noJoin, ht.fc_ret)
        ∧ (∀ v, res = Except.ok v → ht.fc_ret = some v)
        ∧ (∀ e, res = Except.error e → ht.fc_ret = none)) := by
  intro α ε κ fid fid2 tor polls polls' proc proc' t t' res h ht hh hht
  constructor
  · intro hterm
    have hI : MPCStoredInv h := by
      rw [hh]; exact stored_inv_sync polls proc _ (stored_inv_init fid tor)
    exact ⟨by simp [MultiProcessedCall.wait, hterm],
      by simp [MultiProcessedCall.wait, hterm],
      hI.2.1, hI.2.2,
      MultiProcessedCall.sync_state_of_terminal h polls' proc' hterm⟩
  · subst hht
    cases res with
    | ok v =>
        refine ⟨by simp [ThreadedCall.exe, CALL_STATE_SUCCESS,
            CALL_STATE_INCOMPLETE], ?_, ?_, ?_⟩
        · simp [ThreadedCall.wait, ThreadedCall.exe, CALL_STATE_SUCCESS,
            CALL_STATE_INCOMPLETE]
        · intro v' hv
          cases hv
          simp [ThreadedCall.exe]
        · intro e' he
          cases he
    | error e =>
        refine ⟨by simp [ThreadedCall.exe, CALL_STATE_ERROR,
            CALL_STATE_INCOMPLETE], ?_, ?_, ?_⟩
        · simp [ThreadedCall.wait, ThreadedCall.exe, ThreadedCall.init,
            CALL_STATE_ERROR, CALL_STATE_INCOMPLETE]
        · intro v' hv
          cases hv
        · intro e' he
          cases he
          simp [ThreadedCall.exe, ThreadedCall.init]

/-- Witness for C8 at concrete terminal handles: a Success-state process
handle (result 9) and an Error-state thread handle both answer `wait`
immediately without joining. -/
theorem C8_witness :
    MultiProcessedCall.wait
        (MultiProcessedCall.sync_state (MultiProcessedCall.init Nat Nat Nat 1 false)
          [Poll.msg (QMsg.success_set 9)] ⟨"Linux", 4, false, false⟩).1 5
      = (JoinMode.noJoin,
         (MultiProcessedCall.sync_state (MultiProcessedCall.init Nat Nat Nat 1 false)
           [Poll.msg (QMsg.success_set 9)] ⟨"Linux", 4, false, false⟩).1.fc_ret)
    ∧ ThreadedCall.wait
        (ThreadedCall.exe (ThreadedCall.init Nat Nat Nat 2) (Except.error 3)).1 5
      = (JoinMode.noJoin,
         (ThreadedCall.exe (ThreadedCall.init Nat Nat Nat 2)
           (Except.error 3)).1.fc_ret) :=
  ⟨((C8_wait_on_terminal_is_immediate_and_idempotent Nat Nat Nat 1 2 false
      [Poll.msg (QMsg.success_set 9)] [] ⟨"Linux", 4, false, false⟩
      ⟨"Linux", 4, false, false⟩ 5 2 (Except.error 3) _ _ rfl rfl).1
      (by decide)).1,
   ((C8_wait_on_terminal_is_immediate_and_idempotent Nat Nat Nat 1 2 false
      [Poll.msg (QMsg.success_set 9)] [] ⟨"Linux", 4, false, false⟩
      ⟨"Linux", 4, false, false⟩ 5 2 (Except.error 3) _ _ rfl rfl).2).2.1⟩

end Lmttfy
